import Mathlib

/-!
Shallow embedding of the monopoly client rendering and UI subsystem
(src/ui.rs and src/render.rs of the repository).

Conventions used throughout this development:
* f32 values are embedded as rationals with exact arithmetic.
* u32 and u64 values are embedded as naturals with explicit reduction
  modulo 2 to the 32 or 2 to the 64 where the machine width matters.
* Arc-held GPU resources such as atlases and textures are identified by
  a natural number standing for their identity; the only observation the
  embedded code performs on them is taking that identity.
* Rust panics, including unwrap on an Err value and the unreachable
  macro, are embedded as the error case of Except or as Option.none.
-/

/-- Click kinds delivered to components, from src/ui.rs. -/
inductive ClickKind
  | PressDown
  | Release
deriving DecidableEq, Repr

/-- Hover modes delivered to components, from src/ui.rs. -/
inductive HoverMode
  | Enter
  | Exit
deriving DecidableEq, Repr

/-- HoverMode.reverse from src/ui.rs. -/
def HoverMode.reverse : HoverMode → HoverMode
  | HoverMode.Enter => HoverMode.Exit
  | HoverMode.Exit => HoverMode.Enter

/-- HoverMode.to_bool from src/ui.rs. -/
def HoverMode.to_bool : HoverMode → Bool
  | HoverMode.Enter => true
  | HoverMode.Exit => false

/-- The rgba color struct of src/ui.rs with f32 fields embedded as rationals. -/
structure Color where
  r : ℚ
  g : ℚ
  b : ℚ
  a : ℚ
deriving DecidableEq, Repr

/-- A length four f32 array laid out as the four color channels, the
image of Color.into_array. Field ci is index i of the Rust array. -/
structure RGBA where
  c0 : ℚ
  c1 : ℚ
  c2 : ℚ
  c3 : ℚ
deriving DecidableEq, Repr

/-- Color.scale from src/ui.rs: multiplies r, b and g by the factor and
leaves the alpha channel untouched. -/
def Color.scale (self : Color) (factor : ℚ) : Color :=
  { self with r := self.r * factor, b := self.b * factor, g := self.g * factor }

/-- Color.into_array from src/ui.rs. -/
def Color.into_array (self : Color) : RGBA :=
  ⟨self.r, self.g, self.b, self.a⟩

/-- UvKind from src/render.rs: absolute atlas texel coordinates are u32
pairs, relative coordinates are f32 pairs. -/
inductive UvKind
  | Absolute (uv : Nat × Nat)
  | Relative (uv : ℚ × ℚ)
deriving DecidableEq, Repr

/-- The tagged vertex union from src/render.rs. -/
inductive Vertex
  | Color (pos : ℚ × ℚ) (color : RGBA)
  | Texture (pos : ℚ × ℚ) (alpha : ℚ) (uv : UvKind) (color_scale_factor : ℚ)
      (grayscale_conv : Bool)
deriving DecidableEq, Repr

/-- ColorSource from src/render.rs. The Arc of the Atlas and of the
TexTriple are represented by their numeric identity. -/
inductive ColorSource
  | PerVert
  | Atlas (atlas : Nat)
  | Tex (tex : Nat)
deriving DecidableEq, Repr

/-- The transient UI model of src/render.rs: a vertex list plus its
declared color source. -/
structure Model where
  vertices : List Vertex
  color_src : ColorSource
deriving DecidableEq, Repr

/-- An atlas allocation handle: the observations the UI code makes on
the Arc of AtlasAlloc are alloc.uv().into_tuple() and alloc.atlas(),
whose atlas is identified by its id. -/
structure AtlasAlloc where
  atlas : Nat
  uv : Nat × Nat
deriving DecidableEq, Repr

/-- TexTy from src/render.rs. The simple texture triple is identified by
a numeric identity. -/
inductive TexTy
  | Atlas (alloc : AtlasAlloc)
  | Simple (tex : Nat)
deriving DecidableEq, Repr

/-- The Tex wrapper struct of src/ui.rs. -/
structure Tex where
  ty : TexTy

/-- Alias for the six entry color array of a quad coloring, introduced
only to keep the constructor names of Coloring identical to the source
enum without shadowing the Color and Tex types. -/
abbrev ColorArray := Fin 6 → Color

/-- Alias for the Tex wrapper, see ColorArray. -/
abbrev TexWrap := Tex

/-- Coloring of a six vertex quad from src/ui.rs, specialized to the
only instantiation the source uses, VERTICES = 6. -/
inductive Coloring
  | Color (colors : ColorArray)
  | Tex (tex : TexWrap)

/-- COLOR_UV_OFFSETS from src/ui.rs. -/
def COLOR_UV_OFFSETS : Fin 6 → ℚ × ℚ :=
  ![(0, 0), (1, 0), (1, 1), (0, 0), (0, 1), (1, 1)]

/-- The free function is_inbounds from src/ui.rs. -/
def is_inbounds (dims pos test : ℚ × ℚ) : Bool :=
  let bounds := (pos.1 + dims.1, pos.2 + dims.2)
  (test.1 ≥ pos.1 && test.2 ≥ pos.2) && (test.1 ≤ bounds.1 && test.2 ≤ bounds.2)

/-- ColorBox from src/ui.rs. -/
structure ColorBox where
  pos : ℚ × ℚ
  width : ℚ
  height : ℚ
  coloring : Coloring

/-- ColorBox::build_model from src/ui.rs. The grayscale_conv field is
absent from the vertex construction in the source revision and is taken
as false. -/
def ColorBox.build_model (self : ColorBox) : Model :=
  let x_off := 2 * self.pos.1
  let y_off := 2 * self.pos.2
  let vpos : Fin 6 → ℚ × ℚ :=
    ![(-1 + x_off, -1 + y_off),
      (2 * self.width - 1 + x_off, -1 + y_off),
      (2 * self.width - 1 + x_off, 2 * self.height - 1 + y_off),
      (-1 + x_off, -1 + y_off),
      (-1 + x_off, 2 * self.height - 1 + y_off),
      (2 * self.width - 1 + x_off, 2 * self.height - 1 + y_off)]
  let vertices : List Vertex :=
    match self.coloring with
    | Coloring.Color colors =>
        List.ofFn fun i : Fin 6 => Vertex.Color (vpos i) ((colors i).into_array)
    | Coloring.Tex tex =>
        List.ofFn fun i : Fin 6 =>
          Vertex.Texture (vpos i) 1
            (match tex.ty with
             | TexTy.Atlas atlas => UvKind.Absolute atlas.uv
             | TexTy.Simple _ => UvKind.Relative (COLOR_UV_OFFSETS i))
            1 false
  { vertices := vertices
    color_src :=
      match self.coloring with
      | Coloring.Color _ => ColorSource.PerVert
      | Coloring.Tex tex =>
          match tex.ty with
          | TexTy.Atlas atlas => ColorSource.Atlas atlas.atlas
          | TexTy.Simple tex => ColorSource.Tex tex }

/-- TextBox from src/ui.rs. The text section only feeds the glyph queue
side effect of do_render and is kept as the list of its raw strings. -/
structure TextBox where
  pos : ℚ × ℚ
  width : ℚ
  height : ℚ
  coloring : Coloring
  texts : List String

/-- TextBox::build_model from src/ui.rs; the vertex construction is
literally the one of ColorBox::build_model. -/
def TextBox.build_model (self : TextBox) : Model :=
  let x_off := 2 * self.pos.1
  let y_off := 2 * self.pos.2
  let vpos : Fin 6 → ℚ × ℚ :=
    ![(-1 + x_off, -1 + y_off),
      (2 * self.width - 1 + x_off, -1 + y_off),
      (2 * self.width - 1 + x_off, 2 * self.height - 1 + y_off),
      (-1 + x_off, -1 + y_off),
      (-1 + x_off, 2 * self.height - 1 + y_off),
      (2 * self.width - 1 + x_off, 2 * self.height - 1 + y_off)]
  let vertices : List Vertex :=
    match self.coloring with
    | Coloring.Color colors =>
        List.ofFn fun i : Fin 6 => Vertex.Color (vpos i) ((colors i).into_array)
    | Coloring.Tex tex =>
        List.ofFn fun i : Fin 6 =>
          Vertex.Texture (vpos i) 1
            (match tex.ty with
             | TexTy.Atlas atlas => UvKind.Absolute atlas.uv
             | TexTy.Simple _ => UvKind.Relative (COLOR_UV_OFFSETS i))
            1 false
  { vertices := vertices
    color_src :=
      match self.coloring with
      | Coloring.Color _ => ColorSource.PerVert
      | Coloring.Tex tex =>
          match tex.ty with
          | TexTy.Atlas atlas => ColorSource.Atlas atlas.atlas
          | TexTy.Simple tex => ColorSource.Tex tex }

/-- TextBox::pos from src/ui.rs. -/
def TextBox.position (self : TextBox) : ℚ × ℚ := self.pos

/-- TextBox::dims from src/ui.rs. -/
def TextBox.dims (self : TextBox) : ℚ × ℚ := (self.width, self.height)

/-- Button from src/ui.rs. The payload data and the stored callback are
not part of the geometric state; the callback is passed explicitly to
the operations that may invoke it. -/
structure Button where
  inner_box : TextBox
  hovered : Bool
  pressed : Bool

/-- Button::pos from src/ui.rs. -/
def Button.position (self : Button) : ℚ × ℚ := self.inner_box.pos

/-- Button::dims from src/ui.rs. -/
def Button.dims (self : Button) : ℚ × ℚ := (self.inner_box.width, self.inner_box.height)

/-- Button::build_model from src/ui.rs: the inner box model with each
vertex darkened by 0.8 per active flag; rgb channels are multiplied for
color vertices while the color scale factor is overwritten for texture
vertices. -/
def Button.build_model (self : Button) : Model :=
  let base_model := self.inner_box.build_model
  let scale : ℚ :=
    (if self.hovered then (8 : ℚ) / 10 else 1) * (if self.pressed then (8 : ℚ) / 10 else 1)
  let vertices := base_model.vertices.map fun vert =>
    match vert with
    | Vertex.Color pos color =>
        Vertex.Color pos ⟨color.c0 * scale, color.c1 * scale, color.c2 * scale, color.c3⟩
    | Vertex.Texture pos alpha uv _ grayscale_conv =>
        Vertex.Texture pos alpha uv scale grayscale_conv
  { vertices := vertices, color_src := base_model.color_src }

/-- Button::on_click from src/ui.rs. The stored callback cb receives the
mutated button; the returned boolean reports whether the callback was
invoked. -/
def Button.on_click (cb : Button → Button) (self : Button) (click_kind : ClickKind)
    (pos : ℚ × ℚ) : Button × Bool :=
  if click_kind = ClickKind.Release then
    let self := { self with pressed := false }
    if is_inbounds self.dims self.position pos then
      (cb self, true)
    else
      (self, false)
  else
    ({ self with pressed := true }, false)

/-- Button::on_hover from src/ui.rs. -/
def Button.on_hover (self : Button) (mode : HoverMode) (_pos : ℚ × ℚ) : Button :=
  { self with hovered := mode.to_bool }

/-- Button::is_hovered from src/ui.rs. -/
def Button.is_hovered (self : Button) : Option HoverMode :=
  if self.hovered then some HoverMode.Enter else some HoverMode.Exit

/-- InnerUIComponent from src/ui.rs, generic over the state type of the
wrapped boxed Component the way the source is generic through trait
dispatch. The atomic dirty flag and the mutex guarded cached model
become plain fields because the embedded operations are the critical
sections of the source. -/
structure InnerUIComponent (σ : Type) where
  inner : σ
  precomputed_model : Model
  dirty : Bool

/-- InnerUIComponent::build_model from src/ui.rs. The call
dirty.fetch_and(false, AcqRel) reads the old flag and clears it; on a
set flag the wrapped builder runs and its result is stored. The third
result counts the builder invocations performed by the call. -/
def InnerUIComponent.build_model {σ : Type} (build : σ → Model)
    (self : InnerUIComponent σ) : Model × InnerUIComponent σ × Nat :=
  if self.dirty then
    let model := build self.inner
    (model, { self with precomputed_model := model, dirty := false }, 1)
  else
    (self.precomputed_model, self, 0)

/-- InnerUIComponent::make_dirty from src/ui.rs. -/
def InnerUIComponent.make_dirty {σ : Type} (self : InnerUIComponent σ) :
    InnerUIComponent σ :=
  { self with dirty := true }

/-- UIComponent::on_click from src/ui.rs: mutate the wrapped component
under the write lock, then make_dirty before returning. -/
def UIComponent.on_click {σ : Type} (onClickImpl : σ → ClickKind → ℚ × ℚ → σ)
    (self : InnerUIComponent σ) (click_kind : ClickKind) (pos : ℚ × ℚ) :
    InnerUIComponent σ :=
  InnerUIComponent.make_dirty { self with inner := onClickImpl self.inner click_kind pos }

/-- UIComponent::on_click_outside from src/ui.rs. -/
def UIComponent.on_click_outside {σ : Type} (onClickOutsideImpl : σ → σ)
    (self : InnerUIComponent σ) : InnerUIComponent σ :=
  InnerUIComponent.make_dirty { self with inner := onClickOutsideImpl self.inner }

/-- UIComponent::on_hover from src/ui.rs. -/
def UIComponent.on_hover {σ : Type} (onHoverImpl : σ → HoverMode → ℚ × ℚ → σ)
    (self : InnerUIComponent σ) (mode : HoverMode) (pos : ℚ × ℚ) :
    InnerUIComponent σ :=
  InnerUIComponent.make_dirty { self with inner := onHoverImpl self.inner mode pos }

/-- The observations Container dispatch makes on one stored component
during a scan: its dims and pos, read through is_inbounds, and the
answer of is_hovered. Dispatch never reads anything else before
deciding which callback a component receives. -/
structure CompView where
  dims : ℚ × ℚ
  pos : ℚ × ℚ
  hovered : Option HoverMode
deriving DecidableEq, Repr

/-- Root level alias of the free function is_inbounds; the method on
CompView cannot refer to the root name unqualified. -/
def isInboundsFree : (ℚ × ℚ) → (ℚ × ℚ) → (ℚ × ℚ) → Bool := is_inbounds

/-- CompView analogue of UIComponent::is_inbounds from src/ui.rs: reads
dims and pos of the inner component and tests the free is_inbounds. -/
def CompView.is_inbounds (self : CompView) (pos : ℚ × ℚ) : Bool :=
  isInboundsFree self.dims self.pos pos

/-- The callback a component received during one dispatch scan. -/
inductive UIEvent
  | click (kind : ClickKind) (pos : ℚ × ℚ)
  | clickOutside
  | hover (mode : HoverMode) (pos : ℚ × ℚ)
deriving DecidableEq, Repr

/-- The loop body state of Container::on_mouse_click from src/ui.rs:
found tracks whether an inbounds component was already served. The
result lists, in component order, the callback each component
received. -/
def onMouseClickLoop (found : Bool) (pos : ℚ × ℚ) (click_kind : ClickKind) :
    List CompView → List UIEvent
  | [] => []
  | component :: rest =>
    if !found && component.is_inbounds pos then
      UIEvent.click click_kind pos :: onMouseClickLoop true pos click_kind rest
    else
      UIEvent.clickOutside :: onMouseClickLoop found pos click_kind rest

/-- Container::on_mouse_click from src/ui.rs, observed as the per
component callback log of its single scan. -/
def Container.on_mouse_click (components : List CompView) (pos : ℚ × ℚ)
    (click_kind : ClickKind) : List UIEvent :=
  onMouseClickLoop false pos click_kind components

/-- The loop body of Container::on_mouse_hover from src/ui.rs; none
records that a component received no callback. -/
def onMouseHoverLoop (found : Bool) (pos : ℚ × ℚ) :
    List CompView → List (Option UIEvent)
  | [] => []
  | component :: rest =>
    if !found && component.is_inbounds pos then
      some (UIEvent.hover HoverMode.Enter pos) :: onMouseHoverLoop true pos rest
    else if component.hovered = some HoverMode.Enter then
      some (UIEvent.hover HoverMode.Exit pos) :: onMouseHoverLoop found pos rest
    else
      none :: onMouseHoverLoop found pos rest

/-- Container::on_mouse_hover from src/ui.rs, observed as the per
component callback log of its single scan. -/
def Container.on_mouse_hover (components : List CompView) (pos : ℚ × ℚ) :
    List (Option UIEvent) :=
  onMouseHoverLoop false pos components

/-- Index of the first component whose bounds contain the position, the
spec side notion the dispatch claims are stated against. -/
def hitIndex (components : List CompView) (pos : ℚ × ℚ) : Option Nat :=
  components.findIdx? fun component => component.is_inbounds pos

/-- GRAYSCALE_CONV_FLAG from src/render.rs. -/
def GRAYSCALE_CONV_FLAG : Nat := 1 <<< 0

/-- The ColorVertex GPU struct of src/render.rs. -/
structure ColorVertex where
  pos : ℚ × ℚ
  color : RGBA
deriving DecidableEq, Repr

/-- The AbsoluteTextureVertex GPU struct of src/render.rs. -/
structure AbsoluteTextureVertex where
  pos : ℚ × ℚ
  uv : Nat × Nat
  alpha : ℚ
  color_scale_factor : ℚ
  meta : Nat
deriving DecidableEq, Repr

/-- The RelativeTextureVertex GPU struct of src/render.rs. -/
structure RelativeTextureVertex where
  pos : ℚ × ℚ
  uv : ℚ × ℚ
  alpha : ℚ
  color_scale_factor : ℚ
  meta : Nat
deriving DecidableEq, Repr

/-- Conversion of a UI vertex of a PerVert model inside Renderer::render
from src/render.rs; a Texture vertex hits the unreachable macro. -/
def vertexToColor : Vertex → Option ColorVertex
  | Vertex.Color pos color => some ⟨pos, color⟩
  | Vertex.Texture .. => none

/-- Conversion of a UI vertex of an Atlas model inside Renderer::render
from src/render.rs; a Color vertex or a relative uv hits the
unreachable macro. -/
def vertexToAbs : Vertex → Option AbsoluteTextureVertex
  | Vertex.Color .. => none
  | Vertex.Texture pos alpha uv color_scale_factor grayscale_conv =>
    match uv with
    | UvKind.Absolute abs =>
        some ⟨pos, abs, alpha, color_scale_factor,
          if grayscale_conv then Nat.lor 0 GRAYSCALE_CONV_FLAG else 0⟩
    | UvKind.Relative _ => none

/-- Conversion of a UI vertex of a Tex model inside Renderer::render
from src/render.rs; a Color vertex or an absolute uv hits the
unreachable macro. -/
def vertexToRel : Vertex → Option RelativeTextureVertex
  | Vertex.Color .. => none
  | Vertex.Texture pos alpha uv color_scale_factor grayscale_conv =>
    match uv with
    | UvKind.Absolute _ => none
    | UvKind.Relative rel =>
        some ⟨pos, rel, alpha, color_scale_factor,
          if grayscale_conv then Nat.lor 0 GRAYSCALE_CONV_FLAG else 0⟩

/-- The per atlas map update of Renderer::render from src/render.rs: an
existing entry of the HashMap is extended in place, otherwise the
collected vertices are inserted fresh. The HashMap is embedded as an
association list since render never iterates it. -/
def insertAtlasModels (m : List (Nat × List AbsoluteTextureVertex)) (id : Nat)
    (vs : List AbsoluteTextureVertex) : List (Nat × List AbsoluteTextureVertex) :=
  if m.any fun e => e.1 = id then
    m.map fun e => if e.1 = id then (e.1, e.2 ++ vs) else e
  else
    m ++ [(id, vs)]

/-- The three vertex buckets Renderer::render accumulates over the UI
model list in src/render.rs. -/
structure Buckets where
  atlas_models : List (Nat × List AbsoluteTextureVertex)
  color_models : List ColorVertex
  texture_models : List (Nat × List RelativeTextureVertex)
deriving DecidableEq, Repr

/-- One iteration of the bucket partition loop of Renderer::render from
src/render.rs; none embeds the unreachable panic on a vertex variant
that does not match the declared color source. -/
def partitionStep (b : Buckets) (m : Model) : Option Buckets :=
  match m.color_src with
  | ColorSource.PerVert => do
      let vs ← m.vertices.mapM vertexToColor
      some { b with color_models := b.color_models ++ vs }
  | ColorSource.Atlas atlas => do
      let vs ← m.vertices.mapM vertexToAbs
      some { b with atlas_models := insertAtlasModels b.atlas_models atlas vs }
  | ColorSource.Tex tex => do
      let vs ← m.vertices.mapM vertexToRel
      some { b with texture_models := b.texture_models ++ [(tex, vs)] }

/-- The bucket partition loop of Renderer::render from src/render.rs. -/
def partitionModels (ui_models : List Model) : Option Buckets :=
  ui_models.foldlM partitionStep ⟨[], [], []⟩

/-- The UI pipelines owned by the Renderer in src/render.rs. -/
inductive Pipeline
  | colorUi
  | texUi
  | atlasUi
  | colorModel
  | texModel
deriving DecidableEq, Repr

/-- A per frame vertex buffer created by Renderer::render together with
its contents. -/
inductive UploadedBuffer
  | colorBuf (vs : List ColorVertex)
  | relTexBuf (vs : List RelativeTextureVertex)
  | absTexBuf (vs : List AbsoluteTextureVertex)
deriving DecidableEq, Repr

/-- One draw issued inside the first render pass of Renderer::render:
the pipeline set, the vertex range length drawn, and the texture
identity the bind group at slot zero was built from, if any. -/
structure UIDraw where
  pipeline : Pipeline
  vertexCount : Nat
  bindTex : Option Nat
deriving DecidableEq, Repr

/-- The observable CPU side submission of one Renderer::render call:
the buckets computed, the frame scoped vertex buffers created in
creation order, and the first pass draw list in submission order. -/
structure FrameSubmission where
  buckets : Buckets
  uploadedBuffers : List UploadedBuffer
  pass1Draws : List UIDraw
deriving DecidableEq, Repr

/-- The buffer creation sequence of Renderer::render from
src/render.rs: the color buffer is created first, then one buffer per
texture bucket; no buffer is ever created from an atlas bucket since
that code is commented out in the source. -/
def mkUploadedBuffers (b : Buckets) : List UploadedBuffer :=
  UploadedBuffer.colorBuf b.color_models ::
    b.texture_models.map fun tm => UploadedBuffer.relTexBuf tm.2

/-- The first pass draw sequence of Renderer::render from src/render.rs:
one draw of the whole color buffer with the color pipeline and no bind
group, then per texture bucket one draw with the texture pipeline and
the bind group of that texture; the atlas bucket map is dropped without
being drawn. -/
def mkPass1Draws (b : Buckets) : List UIDraw :=
  ⟨Pipeline.colorUi, b.color_models.length, none⟩ ::
    b.texture_models.map fun tm => ⟨Pipeline.texUi, tm.2.length, some tm.1⟩

/-- Surface errors the external State::render call can report; the
renderer only ever observes that the Result was an Err. -/
inductive SurfaceError
  | lost
  | outdated
  | outOfMemory
  | timedOut
deriving DecidableEq, Repr

/-- The panic exits of Renderer::render from src/render.rs: the
unreachable macro inside the partition loop, and the unwrap applied to
the Result of the external State::render call after the frame was
encoded and presented. -/
inductive RenderPanic
  | unreachableVertex
  | presentUnwrap (e : SurfaceError)
deriving DecidableEq, Repr

/-- Renderer::render from src/render.rs, observed at its CPU side
submission boundary. The closure passed to State::render partitions the
UI models, creates the frame scoped buffers and records both passes;
the outcome of surface acquisition and presentation is supplied by the
external State and the source applies unwrap to it, so an Err becomes a
panic and never a normal return. -/
def Renderer.render (ui_models : List Model)
    (present : Except SurfaceError Unit) : Except RenderPanic FrameSubmission :=
  match partitionModels ui_models with
  | none => Except.error RenderPanic.unreachableVertex
  | some b =>
    match present with
    | Except.ok _ => Except.ok ⟨b, mkUploadedBuffers b, mkPass1Draws b⟩
    | Except.error e => Except.error (RenderPanic.presentUnwrap e)

/-- SAFE_FRAC_PI_2 from src/render.rs: the f32 constant FRAC_PI_2,
whose exact value is 13176795 divided by 2 to the 23, minus 0.0001. -/
def SAFE_FRAC_PI_2 : ℚ := 13176795 / 8388608 - 1 / 10000

/-- A three component f32 vector from the cgmath collaborator. -/
structure V3 where
  x : ℚ
  y : ℚ
  z : ℚ
deriving DecidableEq, Repr

/-- Componentwise vector sum. -/
def V3.add (a b : V3) : V3 := ⟨a.x + b.x, a.y + b.y, a.z + b.z⟩

/-- Vector times scalar, mirroring the cgmath multiplication the source
applies on the right of a vector. -/
def V3.smul (a : V3) (s : ℚ) : V3 := ⟨a.x * s, a.y * s, a.z * s⟩

/-- The first person Camera of src/render.rs; angles are radians. -/
structure Camera where
  position : V3
  yaw : ℚ
  pitch : ℚ
deriving DecidableEq, Repr

/-- CameraController from src/render.rs. -/
structure CameraController where
  amount_left : ℚ
  amount_right : ℚ
  amount_forward : ℚ
  amount_backward : ℚ
  amount_up : ℚ
  amount_down : ℚ
  rotate_horizontal : ℚ
  rotate_vertical : ℚ
  scroll : ℚ
  speed : ℚ
  sensitivity : ℚ
deriving DecidableEq, Repr

/-- CameraController::new from src/render.rs. -/
def CameraController.new (speed sensitivity : ℚ) : CameraController :=
  ⟨0, 0, 0, 0, 0, 0, 0, 0, 0, speed, sensitivity⟩

/-- The external floating point operations update_camera consumes: the
sin and cos of an angle, and vector normalization from cgmath. They
live outside the repository, so the embedding takes them as
parameters; no claim depends on their values. -/
structure TrigOps where
  sin_cos : ℚ → ℚ × ℚ
  normalize : V3 → V3

/-- CameraController::update_camera from src/render.rs. The Duration
argument enters the body only through dt.as_secs_f32(), embedded
directly as the rational number of seconds. Returns the controller and
camera after the call. -/
def CameraController.update_camera (ops : TrigOps) (self : CameraController)
    (camera : Camera) (dt : ℚ) : CameraController × Camera :=
  let yawSinCos := ops.sin_cos camera.yaw
  let yaw_sin := yawSinCos.1
  let yaw_cos := yawSinCos.2
  let forward := ops.normalize ⟨yaw_cos, 0, yaw_sin⟩
  let right := ops.normalize ⟨-yaw_sin, 0, yaw_cos⟩
  let position := camera.position.add
    (forward.smul ((self.amount_forward - self.amount_backward) * self.speed * dt))
  let position := position.add
    (right.smul ((self.amount_right - self.amount_left) * self.speed * dt))
  let pitchSinCos := ops.sin_cos camera.pitch
  let pitch_sin := pitchSinCos.1
  let pitch_cos := pitchSinCos.2
  let scrollward := ops.normalize ⟨pitch_cos * yaw_cos, pitch_sin, pitch_cos * yaw_sin⟩
  let position := position.add
    (scrollward.smul (self.scroll * self.speed * self.sensitivity * dt))
  let self := { self with scroll := 0 }
  let position :=
    { position with y := position.y + (self.amount_up - self.amount_down) * self.speed * dt }
  let yaw := camera.yaw + self.rotate_horizontal * self.sensitivity * dt
  let pitch := camera.pitch + (-self.rotate_vertical) * self.sensitivity * dt
  let self := { self with rotate_horizontal := 0, rotate_vertical := 0 }
  let pitch :=
    if pitch < -SAFE_FRAC_PI_2 then -SAFE_FRAC_PI_2
    else if pitch > SAFE_FRAC_PI_2 then SAFE_FRAC_PI_2
    else pitch
  (self, { position := position, yaw := yaw, pitch := pitch })

/-- Dimensions from src/render.rs: both u32 framebuffer sizes packed
into one u64 word held in a single atomic cell. -/
structure Dimensions where
  inner : Nat
deriving DecidableEq, Repr

/-- Dimensions::new from src/render.rs. -/
def Dimensions.new (width height : Nat) : Dimensions :=
  ⟨(width ||| (height <<< 32)) % 2 ^ 64⟩

/-- Dimensions::get from src/render.rs: one atomic load, then the low
word as the width and the high word as the height. -/
def Dimensions.get (self : Dimensions) : Nat × Nat :=
  let val := self.inner
  (val % 2 ^ 32, (val >>> 32) % 2 ^ 32)

/-- Dimensions::set from src/render.rs: pack both sizes and store them
with one atomic store. -/
def Dimensions.set (self : Dimensions) (width height : Nat) : Dimensions :=
  let val := (width ||| (height <<< 32)) % 2 ^ 64
  { self with inner := val }

/-- A sequence of Dimensions::set calls applied in order, the trace
semantics of the single writer cell. -/
def Dimensions.applySets (self : Dimensions) : List (Nat × Nat) → Dimensions
  | [] => self
  | wh :: rest => Dimensions.applySets (self.set wh.1 wh.2) rest

/-- The packed u64 word equals low word plus shifted high word whenever
the width fits the low word. -/
theorem dimensionsPack_eq (w h : Nat) (hw : w < 2 ^ 32) :
    w ||| (h <<< 32) = w + 2 ^ 32 * h := by
  rw [Nat.shiftLeft_eq, Nat.lor_comm, Nat.mul_comm h (2 ^ 32),
    ← Nat.mul_add_lt_is_or hw h, Nat.add_comm]

/-- One set followed by one get recovers both sizes exactly. -/
theorem dimensions_get_after_set (d : Dimensions) (w h : Nat)
    (hw : w < 2 ^ 32) (hh : h < 2 ^ 32) :
    (d.set w h).get = (w, h) := by
  simp only [Dimensions.set, Dimensions.get, dimensionsPack_eq w h hw,
    Nat.shiftRight_eq_div_pow, Prod.mk.injEq]
  norm_num at hw hh ⊢
  omega

/-- Splitting a trace of set calls. -/
theorem dimensions_applySets_append (d : Dimensions) (l1 l2 : List (Nat × Nat)) :
    d.applySets (l1 ++ l2) = (d.applySets l1).applySets l2 := by
  induction l1 generalizing d with
  | nil => simp [Dimensions.applySets]
  | cons x xs ih => simp [Dimensions.applySets, ih]

/-- Claim C10: for every pair of 32 bit sizes, Dimensions::set followed
by Dimensions::get returns exactly that pair, and since each get reads
the one packed word written whole by one set, a get after any trace of
sets observes the width and height of the same, last, set. -/
theorem dimensions_set_get_roundtrip (d : Dimensions) (width height : Nat)
    (hw : width < 2 ^ 32) (hh : height < 2 ^ 32) :
    (d.set width height).get = (width, height) ∧
    ∀ sets : List (Nat × Nat),
      (d.applySets (sets ++ [(width, height)])).get = (width, height) := by
  refine ⟨dimensions_get_after_set d width height hw hh, fun sets => ?_⟩
  rw [dimensions_applySets_append]
  simp only [Dimensions.applySets]
  exact dimensions_get_after_set _ width height hw hh

/-- Witness for claim C10 at the concrete frame size 800 by 600. -/
theorem dimensions_set_get_roundtrip_witness :
    (800 < 2 ^ 32 ∧ 600 < 2 ^ 32) ∧
    ((Dimensions.new 1 1).set 800 600).get = (800, 600) :=
  ⟨⟨by norm_num, by norm_num⟩,
    (dimensions_set_get_roundtrip (Dimensions.new 1 1) 800 600
      (by norm_num) (by norm_num)).1⟩

/-- Claim C7: after CameraController::update_camera the camera pitch
lies in the closed interval from minus SAFE_FRAC_PI_2 to
SAFE_FRAC_PI_2, and whenever the accumulated vertical rotation drives
the unclamped pitch below the lower bound, for instance by one large
positive rotate_vertical sample, the resulting pitch is exactly minus
SAFE_FRAC_PI_2. -/
theorem update_camera_pitch_clamp (ops : TrigOps) (ctrl : CameraController)
    (cam : Camera) (dt : ℚ) :
    -SAFE_FRAC_PI_2 ≤ (ctrl.update_camera ops cam dt).2.pitch ∧
    (ctrl.update_camera ops cam dt).2.pitch ≤ SAFE_FRAC_PI_2 ∧
    (cam.pitch + (-ctrl.rotate_vertical) * ctrl.sensitivity * dt < -SAFE_FRAC_PI_2 →
      (ctrl.update_camera ops cam dt).2.pitch = -SAFE_FRAC_PI_2) := by
  have hS : (0 : ℚ) < SAFE_FRAC_PI_2 := by norm_num [SAFE_FRAC_PI_2]
  simp only [CameraController.update_camera]
  split_ifs with h1 h2 <;>
    refine ⟨by linarith, by linarith, fun hbig => ?_⟩ <;> first | rfl | linarith

/-- Witness for claim C7: a camera at pitch zero hit by one vertical
rotation sample of ten radians per unit sensitivity and one second ends
exactly at the lower clamp bound. -/
theorem update_camera_pitch_clamp_witness :
    ((⟨⟨0, 0, 0⟩, 0, 0⟩ : Camera).pitch +
        (-({ CameraController.new 1 1 with rotate_vertical := 10 }).rotate_vertical) *
          ({ CameraController.new 1 1 with rotate_vertical := 10 }).sensitivity * 1 <
      -SAFE_FRAC_PI_2) ∧
    ((CameraController.update_camera ⟨fun _ => (0, 1), id⟩
        { CameraController.new 1 1 with rotate_vertical := 10 }
        ⟨⟨0, 0, 0⟩, 0, 0⟩ 1).2.pitch = -SAFE_FRAC_PI_2) :=
  ⟨by norm_num [CameraController.new, SAFE_FRAC_PI_2],
   (update_camera_pitch_clamp ⟨fun _ => (0, 1), id⟩
      { CameraController.new 1 1 with rotate_vertical := 10 }
      ⟨⟨0, 0, 0⟩, 0, 0⟩ 1).2.2
     (by norm_num [CameraController.new, SAFE_FRAC_PI_2])⟩

/-- Indexing a mapped list with a default, under the length bound. -/
theorem listMapGetD {α β : Type} (f : α → β) (dα : α) (dβ : β) :
    ∀ (l : List α) (j : Nat), j < l.length →
      (l.map f).getD j dβ = f (l.getD j dα) := by
  intro l
  induction l with
  | nil => intro j h; simp at h
  | cons x xs ih =>
    intro j h
    cases j with
    | zero => rfl
    | succ j => simpa using ih j (by simpa using h)

/-- The click scan delivers one callback per component. -/
theorem onMouseClickLoop_length (pos : ℚ × ℚ) (kind : ClickKind) :
    ∀ (found : Bool) (comps : List CompView),
      (onMouseClickLoop found pos kind comps).length = comps.length := by
  intro found comps
  induction comps generalizing found with
  | nil => rfl
  | cons c rest ih => simp only [onMouseClickLoop]; split <;> simp [ih]

/-- Once a component was served the click, the rest of the scan only
delivers on_click_outside. -/
theorem onMouseClickLoop_found (pos : ℚ × ℚ) (kind : ClickKind) :
    ∀ comps : List CompView,
      onMouseClickLoop true pos kind comps = comps.map fun _ => UIEvent.clickOutside := by
  intro comps
  induction comps with
  | nil => rfl
  | cons c rest ih => simp [onMouseClickLoop, ih]

/-- Per index description of the click scan with the found flag down. -/
theorem onMouseClickLoop_spec (pos : ℚ × ℚ) (kind : ClickKind) :
    ∀ (comps : List CompView) (i : Nat), i < comps.length →
      (onMouseClickLoop false pos kind comps).getD i UIEvent.clickOutside =
        if hitIndex comps pos = some i then UIEvent.click kind pos
        else UIEvent.clickOutside := by
  intro comps
  induction comps with
  | nil => intro i h; simp at h
  | cons c rest ih =>
    intro i hi
    by_cases hc : c.is_inbounds pos
    · rw [show onMouseClickLoop false pos kind (c :: rest) =
          UIEvent.click kind pos :: onMouseClickLoop true pos kind rest by
        simp [onMouseClickLoop, hc]]
      rw [onMouseClickLoop_found pos kind rest]
      cases i with
      | zero => simp [hitIndex, List.findIdx?_cons, hc]
      | succ j =>
        have hj : j < rest.length := by simpa using hi
        rw [List.getD_cons_succ,
          listMapGetD (fun _ => UIEvent.clickOutside) ⟨(0, 0), (0, 0), none⟩ _ rest j hj]
        simp [hitIndex, List.findIdx?_cons, hc]
    · rw [show onMouseClickLoop false pos kind (c :: rest) =
          UIEvent.clickOutside :: onMouseClickLoop false pos kind rest by
        simp [onMouseClickLoop, hc]]
      have hcond : hitIndex (c :: rest) pos = (hitIndex rest pos).map fun k => k + 1 := by
        simp [hitIndex, List.findIdx?_cons, hc, List.findIdx?_succ]
      cases i with
      | zero =>
        rw [List.getD_cons_zero, hcond]
        simp [Option.map_eq_some']
      | succ j =>
        have hj : j < rest.length := by simpa using hi
        rw [List.getD_cons_succ, hcond, ih j hj]
        by_cases hr : hitIndex rest pos = some j
        · simp [hr]
        · have : ¬ (hitIndex rest pos).map (fun k => k + 1) = some (j + 1) := by
            simp only [Option.map_eq_some']
            rintro ⟨a, ha, hae⟩
            have haj : a = j := by omega
            subst haj
            exact hr ha
          simp [hr, this]

/-- Claim C3: Container::on_mouse_click performs one in order scan in
which exactly the first component whose bounds contain the position
receives on_click, and every other component, later inbounds components
included, receives on_click_outside. -/
theorem container_click_first_hit (comps : List CompView) (pos : ℚ × ℚ)
    (kind : ClickKind) :
    (Container.on_mouse_click comps pos kind).length = comps.length ∧
    ∀ i, i < comps.length →
      (Container.on_mouse_click comps pos kind).getD i UIEvent.clickOutside =
        if hitIndex comps pos = some i then UIEvent.click kind pos
        else UIEvent.clickOutside :=
  ⟨onMouseClickLoop_length pos kind false comps, onMouseClickLoop_spec pos kind comps⟩

/-- Witness for claim C3: components A, B, C with A and B both
containing the position; the scan at index one, component B, delivers
on_click_outside although B contains the position, because A was
first. -/
theorem container_click_first_hit_witness :
    (1 < ([⟨(1, 1), (0, 0), none⟩, ⟨(2, 2), (0, 0), none⟩,
        ⟨(1, 1), (5, 5), none⟩] : List CompView).length) ∧
    ((Container.on_mouse_click
        [⟨(1, 1), (0, 0), none⟩, ⟨(2, 2), (0, 0), none⟩, ⟨(1, 1), (5, 5), none⟩]
        (1 / 2, 1 / 2) ClickKind.Release).getD 1 UIEvent.clickOutside =
      if hitIndex
          [⟨(1, 1), (0, 0), none⟩, ⟨(2, 2), (0, 0), none⟩, ⟨(1, 1), (5, 5), none⟩]
          (1 / 2, 1 / 2) = some 1 then
        UIEvent.click ClickKind.Release (1 / 2, 1 / 2)
      else UIEvent.clickOutside) :=
  ⟨by decide,
   (container_click_first_hit
      [⟨(1, 1), (0, 0), none⟩, ⟨(2, 2), (0, 0), none⟩, ⟨(1, 1), (5, 5), none⟩]
      (1 / 2, 1 / 2) ClickKind.Release).2 1 (by decide)⟩

/-- The hover scan delivers one record per component. -/
theorem onMouseHoverLoop_length (pos : ℚ × ℚ) :
    ∀ (found : Bool) (comps : List CompView),
      (onMouseHoverLoop found pos comps).length = comps.length := by
  intro found comps
  induction comps generalizing found with
  | nil => rfl
  | cons c rest ih =>
    simp only [onMouseHoverLoop]
    split
    · simp [ih]
    · split <;> simp [ih]

/-- Once a component was served the hover enter, the rest of the scan
delivers the exit callback exactly to the components whose hover state
reports Enter. -/
theorem onMouseHoverLoop_found (pos : ℚ × ℚ) :
    ∀ comps : List CompView,
      onMouseHoverLoop true pos comps = comps.map fun c =>
        if c.hovered = some HoverMode.Enter then some (UIEvent.hover HoverMode.Exit pos)
        else none := by
  intro comps
  induction comps with
  | nil => rfl
  | cons c rest ih =>
    simp only [onMouseHoverLoop, List.map_cons]
    rw [if_neg (by simp)]
    split <;> simp [ih]

/-- Shifting the first hit index over a component that does not contain
the position. -/
theorem hitIndexConsShift (c : CompView) (rest : List CompView) (pos : ℚ × ℚ)
    (j : Nat) (hc : ¬ c.is_inbounds pos = true) :
    hitIndex (c :: rest) pos = some (j + 1) ↔ hitIndex rest pos = some j := by
  simp [hitIndex, List.findIdx?_cons, hc, List.findIdx?_succ, Option.map_eq_some']

/-- Per index description of the hover scan with the found flag down. -/
theorem onMouseHoverLoop_spec (pos : ℚ × ℚ) :
    ∀ (comps : List CompView) (i : Nat), i < comps.length →
      (onMouseHoverLoop false pos comps).getD i none =
        if hitIndex comps pos = some i then some (UIEvent.hover HoverMode.Enter pos)
        else if (comps.getD i ⟨(0, 0), (0, 0), none⟩).hovered = some HoverMode.Enter then
          some (UIEvent.hover HoverMode.Exit pos)
        else none := by
  intro comps
  induction comps with
  | nil => intro i h; simp at h
  | cons c rest ih =>
    intro i hi
    by_cases hc : c.is_inbounds pos
    · rw [show onMouseHoverLoop false pos (c :: rest) =
          some (UIEvent.hover HoverMode.Enter pos) :: onMouseHoverLoop true pos rest by
        simp [onMouseHoverLoop, hc]]
      rw [onMouseHoverLoop_found pos rest]
      cases i with
      | zero => simp [hitIndex, List.findIdx?_cons, hc]
      | succ j =>
        have hj : j < rest.length := by simpa using hi
        rw [List.getD_cons_succ,
          listMapGetD _ (⟨(0, 0), (0, 0), none⟩ : CompView) _ rest j hj]
        simp [hitIndex, List.findIdx?_cons, hc]
    · by_cases hh : c.hovered = some HoverMode.Enter
      · rw [show onMouseHoverLoop false pos (c :: rest) =
            some (UIEvent.hover HoverMode.Exit pos) :: onMouseHoverLoop false pos rest by
          simp [onMouseHoverLoop, hc, hh]]
        cases i with
        | zero =>
          rw [List.getD_cons_zero]
          have : ¬ hitIndex (c :: rest) pos = some 0 := by
            simp [hitIndex, List.findIdx?_cons, hc, List.findIdx?_succ,
              Option.map_eq_some']
          simp [this, hh]
        | succ j =>
          have hj : j < rest.length := by simpa using hi
          rw [List.getD_cons_succ, ih j hj]
          simp only [hitIndexConsShift c rest pos j hc, List.getD_cons_succ]
      · rw [show onMouseHoverLoop false pos (c :: rest) =
            none :: onMouseHoverLoop false pos rest by
          simp [onMouseHoverLoop, hc, hh]]
        cases i with
        | zero =>
          rw [List.getD_cons_zero]
          have : ¬ hitIndex (c :: rest) pos = some 0 := by
            simp [hitIndex, List.findIdx?_cons, hc, List.findIdx?_succ,
              Option.map_eq_some']
          simp [this, hh]
        | succ j =>
          have hj : j < rest.length := by simpa using hi
          rw [List.getD_cons_succ, ih j hj]
          simp only [hitIndexConsShift c rest pos j hc, List.getD_cons_succ]

/-- Claim C8: Container::on_mouse_hover delivers the enter callback to
the first in order component containing the position; every other
component whose is_hovered currently reports Enter receives the exit
callback; a component that neither contains the position nor reports
Enter receives nothing, also when no component at all contains the
position. -/
theorem container_hover_dispatch (comps : List CompView) (pos : ℚ × ℚ) :
    (Container.on_mouse_hover comps pos).length = comps.length ∧
    ∀ i, i < comps.length →
      (Container.on_mouse_hover comps pos).getD i none =
        if hitIndex comps pos = some i then some (UIEvent.hover HoverMode.Enter pos)
        else if (comps.getD i ⟨(0, 0), (0, 0), none⟩).hovered = some HoverMode.Enter then
          some (UIEvent.hover HoverMode.Exit pos)
        else none :=
  ⟨onMouseHoverLoop_length pos false comps, onMouseHoverLoop_spec pos comps⟩

/-- Witness for claim C8: the pointer is over no component; the
previously entered component at index zero receives the exit callback,
observed through the general dispatch theorem at index zero. -/
theorem container_hover_dispatch_witness :
    (0 < ([⟨(1, 1), (4, 4), some HoverMode.Enter⟩,
        ⟨(1, 1), (8, 8), some HoverMode.Exit⟩] : List CompView).length) ∧
    ((Container.on_mouse_hover
        [⟨(1, 1), (4, 4), some HoverMode.Enter⟩, ⟨(1, 1), (8, 8), some HoverMode.Exit⟩]
        (1 / 2, 1 / 2)).getD 0 none =
      if hitIndex
          [⟨(1, 1), (4, 4), some HoverMode.Enter⟩, ⟨(1, 1), (8, 8), some HoverMode.Exit⟩]
          (1 / 2, 1 / 2) = some 0 then
        some (UIEvent.hover HoverMode.Enter (1 / 2, 1 / 2))
      else if (([⟨(1, 1), (4, 4), some HoverMode.Enter⟩,
            ⟨(1, 1), (8, 8), some HoverMode.Exit⟩] : List CompView).getD 0
            ⟨(0, 0), (0, 0), none⟩).hovered = some HoverMode.Enter then
        some (UIEvent.hover HoverMode.Exit (1 / 2, 1 / 2))
      else none) :=
  ⟨by decide,
   (container_hover_dispatch
      [⟨(1, 1), (4, 4), some HoverMode.Enter⟩, ⟨(1, 1), (8, 8), some HoverMode.Exit⟩]
      (1 / 2, 1 / 2)).2 0 (by decide)⟩

/-- Claim C4: Button::on_click on PressDown sets pressed and never
invokes the callback; on Release it clears pressed and invokes the
stored callback, on the cleared state, exactly when the release
position lies within the button bounds, so a press followed by a
release outside the bounds clears pressed without invoking the
callback. -/
theorem button_on_click_state (cb : Button → Button) (b : Button) (p : ℚ × ℚ) :
    ((Button.on_click cb b ClickKind.PressDown p).1.pressed = true ∧
      (Button.on_click cb b ClickKind.PressDown p).2 = false) ∧
    ((Button.on_click cb b ClickKind.Release p).2 = is_inbounds b.dims b.position p) ∧
    (is_inbounds b.dims b.position p = true →
      Button.on_click cb b ClickKind.Release p = (cb { b with pressed := false }, true)) ∧
    (is_inbounds b.dims b.position p = false →
      Button.on_click cb b ClickKind.Release p = ({ b with pressed := false }, false)) := by
  by_cases h : is_inbounds b.dims b.position p <;>
    simp_all [Button.on_click, Button.dims, Button.position]

/-- Witness for claim C4: a release at position five comma five,
outside the unit button at the origin, clears pressed and reports the
callback as not invoked. -/
theorem button_on_click_state_witness :
    (is_inbounds
        (Button.dims ⟨⟨(0, 0), 1, 1, Coloring.Color fun _ => ⟨1, 1, 1, 1⟩, []⟩, false, true⟩)
        (Button.position ⟨⟨(0, 0), 1, 1, Coloring.Color fun _ => ⟨1, 1, 1, 1⟩, []⟩, false, true⟩)
        (5, 5) = false) ∧
    (Button.on_click id ⟨⟨(0, 0), 1, 1, Coloring.Color fun _ => ⟨1, 1, 1, 1⟩, []⟩, false, true⟩
        ClickKind.Release (5, 5) =
      ({ (⟨⟨(0, 0), 1, 1, Coloring.Color fun _ => ⟨1, 1, 1, 1⟩, []⟩, false, true⟩ : Button) with
          pressed := false }, false)) :=
  ⟨by simp only [is_inbounds, Button.dims, Button.position]; norm_num,
   (button_on_click_state id
      ⟨⟨(0, 0), 1, 1, Coloring.Color fun _ => ⟨1, 1, 1, 1⟩, []⟩, false, true⟩
      (5, 5)).2.2.2
     (by simp only [is_inbounds, Button.dims, Button.position]; norm_num)⟩

/-- Claim C5: the cached build_model returns the stored model without
running the builder when the dirty flag is clear; with the flag set it
runs the builder once, stores the result, clears the flag and returns
the fresh model; two consecutive calls with no intervening mutation run
the builder at most once in total and return the same model; and each
of the three mutating calls leaves the dirty flag set when it
returns. -/
theorem uicomponent_cache (σ : Type) (build : σ → Model) (c : InnerUIComponent σ) :
    (c.dirty = false →
      InnerUIComponent.build_model build c = (c.precomputed_model, c, 0)) ∧
    (c.dirty = true →
      InnerUIComponent.build_model build c =
        (build c.inner, { c with precomputed_model := build c.inner, dirty := false }, 1)) ∧
    ((InnerUIComponent.build_model build c).2.2 +
        (InnerUIComponent.build_model build
          (InnerUIComponent.build_model build c).2.1).2.2 ≤ 1 ∧
      (InnerUIComponent.build_model build c).1 =
        (InnerUIComponent.build_model build
          (InnerUIComponent.build_model build c).2.1).1) ∧
    (∀ f kind p, (UIComponent.on_click f c kind p).dirty = true) ∧
    (∀ f, (UIComponent.on_click_outside f c).dirty = true) ∧
    (∀ f mode p, (UIComponent.on_hover f c mode p).dirty = true) := by
  by_cases h : c.dirty <;>
    simp_all [InnerUIComponent.build_model, InnerUIComponent.make_dirty,
      UIComponent.on_click, UIComponent.on_click_outside, UIComponent.on_hover]

/-- Witness for claim C5: a clean cached component over a trivial state
returns the stored model with zero builder invocations. -/
theorem uicomponent_cache_witness :
    ((⟨0, ⟨[], ColorSource.PerVert⟩, false⟩ : InnerUIComponent Nat).dirty = false) ∧
    (InnerUIComponent.build_model (fun _ => ⟨[], ColorSource.PerVert⟩)
        (⟨0, ⟨[], ColorSource.PerVert⟩, false⟩ : InnerUIComponent Nat) =
      ((⟨0, ⟨[], ColorSource.PerVert⟩, false⟩ : InnerUIComponent Nat).precomputed_model,
        ⟨0, ⟨[], ColorSource.PerVert⟩, false⟩, 0)) :=
  ⟨rfl,
   (uicomponent_cache Nat (fun _ => ⟨[], ColorSource.PerVert⟩)
      ⟨0, ⟨[], ColorSource.PerVert⟩, false⟩).1 rfl⟩

/-- Spec side clip transform: clip equals two times normalized minus
one, componentwise. -/
def specClip (q : ℚ × ℚ) : ℚ × ℚ := (2 * q.1 - 1, 2 * q.2 - 1)

/-- Position carried by a vertex of either variant. -/
def Vertex.position : Vertex → ℚ × ℚ
  | Vertex.Color pos _ => pos
  | Vertex.Texture pos _ _ _ _ => pos

/-- Spec side corner sequence of a quad: the clip images of bottom
left, bottom right, top right, bottom left, top left, top right. -/
def specCorners (pos : ℚ × ℚ) (w h : ℚ) : List (ℚ × ℚ) :=
  [specClip pos, specClip (pos.1 + w, pos.2), specClip (pos.1 + w, pos.2 + h),
   specClip pos, specClip (pos.1, pos.2 + h), specClip (pos.1 + w, pos.2 + h)]

/-- Claim C6: for every ColorBox and TextBox the built model consists
of exactly six vertices whose positions are the clip space images of
the rectangle corners in the fixed order bottom left, bottom right, top
right, bottom left, top left, top right, and under a per vertex
coloring the vertex at each index carries the supplied color of the
same index. -/
theorem quad_geometry (pos : ℚ × ℚ) (w h : ℚ) (coloring : Coloring)
    (texts : List String) :
    ((ColorBox.build_model ⟨pos, w, h, coloring⟩).vertices.map Vertex.position =
        specCorners pos w h ∧
      (TextBox.build_model ⟨pos, w, h, coloring, texts⟩).vertices.map Vertex.position =
        specCorners pos w h) ∧
    ∀ colors : ColorArray, coloring = Coloring.Color colors →
      (ColorBox.build_model ⟨pos, w, h, coloring⟩).vertices =
        [Vertex.Color (specClip pos) (colors 0).into_array,
         Vertex.Color (specClip (pos.1 + w, pos.2)) (colors 1).into_array,
         Vertex.Color (specClip (pos.1 + w, pos.2 + h)) (colors 2).into_array,
         Vertex.Color (specClip pos) (colors 3).into_array,
         Vertex.Color (specClip (pos.1, pos.2 + h)) (colors 4).into_array,
         Vertex.Color (specClip (pos.1 + w, pos.2 + h)) (colors 5).into_array] ∧
      (TextBox.build_model ⟨pos, w, h, coloring, texts⟩).vertices =
        [Vertex.Color (specClip pos) (colors 0).into_array,
         Vertex.Color (specClip (pos.1 + w, pos.2)) (colors 1).into_array,
         Vertex.Color (specClip (pos.1 + w, pos.2 + h)) (colors 2).into_array,
         Vertex.Color (specClip pos) (colors 3).into_array,
         Vertex.Color (specClip (pos.1, pos.2 + h)) (colors 4).into_array,
         Vertex.Color (specClip (pos.1 + w, pos.2 + h)) (colors 5).into_array] := by
  cases coloring with
  | Color colors =>
    refine ⟨⟨?_, ?_⟩, fun cs hcs => ?_⟩
    · simp only [ColorBox.build_model, specCorners, specClip, Vertex.position,
        List.ofFn_succ, List.ofFn_zero, List.map_cons, List.map_nil,
        Matrix.cons_val_zero, Matrix.cons_val_succ, List.cons.injEq, Prod.mk.injEq,
        and_true, true_and]
      and_intros <;> first | ring1 | rfl
    · simp only [TextBox.build_model, specCorners, specClip, Vertex.position,
        List.ofFn_succ, List.ofFn_zero, List.map_cons, List.map_nil,
        Matrix.cons_val_zero, Matrix.cons_val_succ, List.cons.injEq, Prod.mk.injEq,
        and_true, true_and]
      and_intros <;> first | ring1 | rfl
    · cases hcs
      refine ⟨?_, ?_⟩ <;>
      · simp only [ColorBox.build_model, TextBox.build_model, specClip,
          List.ofFn_succ, List.ofFn_zero, Matrix.cons_val_zero, Matrix.cons_val_succ,
          List.cons.injEq, Prod.mk.injEq, Vertex.Color.injEq, and_true, true_and]
        and_intros <;> first | ring1 | rfl
  | Tex tex =>
    refine ⟨⟨?_, ?_⟩, fun cs hcs => by cases hcs⟩
    · simp only [ColorBox.build_model, specCorners, specClip, Vertex.position,
        List.ofFn_succ, List.ofFn_zero, List.map_cons, List.map_nil,
        Matrix.cons_val_zero, Matrix.cons_val_succ, List.cons.injEq, Prod.mk.injEq,
        and_true, true_and]
      and_intros <;> first | ring1 | rfl
    · simp only [TextBox.build_model, specCorners, specClip, Vertex.position,
        List.ofFn_succ, List.ofFn_zero, List.map_cons, List.map_nil,
        Matrix.cons_val_zero, Matrix.cons_val_succ, List.cons.injEq, Prod.mk.injEq,
        and_true, true_and]
      and_intros <;> first | ring1 | rfl

/-- Color array for the claim C6 witness. -/
def quadWitnessColors : ColorArray := fun _ => ⟨1, 2, 3, 4⟩

/-- Position for the claim C6 witness. -/
def quadWitnessPos : ℚ × ℚ := (1 / 4, 1 / 4)

/-- Witness for claim C6 on the quarter square at one quarter comma one
quarter with a per vertex coloring. -/
theorem quad_geometry_witness :
    (Coloring.Color quadWitnessColors = Coloring.Color quadWitnessColors) ∧
    (ColorBox.build_model
        ⟨quadWitnessPos, 1 / 2, 1 / 2, Coloring.Color quadWitnessColors⟩).vertices =
      [Vertex.Color (specClip quadWitnessPos) (quadWitnessColors 0).into_array,
       Vertex.Color (specClip (quadWitnessPos.1 + 1 / 2, quadWitnessPos.2))
         (quadWitnessColors 1).into_array,
       Vertex.Color (specClip (quadWitnessPos.1 + 1 / 2, quadWitnessPos.2 + 1 / 2))
         (quadWitnessColors 2).into_array,
       Vertex.Color (specClip quadWitnessPos) (quadWitnessColors 3).into_array,
       Vertex.Color (specClip (quadWitnessPos.1, quadWitnessPos.2 + 1 / 2))
         (quadWitnessColors 4).into_array,
       Vertex.Color (specClip (quadWitnessPos.1 + 1 / 2, quadWitnessPos.2 + 1 / 2))
         (quadWitnessColors 5).into_array] :=
  ⟨rfl,
   ((quad_geometry quadWitnessPos (1 / 2) (1 / 2) (Coloring.Color quadWitnessColors)
      []).2 quadWitnessColors rfl).1⟩

/-- The compound darkening factor of a button: 0.8 per active flag. -/
def specHoverPressFactor (hovered pressed : Bool) : ℚ :=
  (if hovered then (8 : ℚ) / 10 else 1) * (if pressed then (8 : ℚ) / 10 else 1)

/-- The per vertex transformation claimed by the spec sentence for
Button::build_model: color and alpha channels multiplied for color
vertices, the color scale factor multiplied for texture vertices. -/
def claimScaleVertex (f : ℚ) : Vertex → Vertex
  | Vertex.Color pos c => Vertex.Color pos ⟨c.c0 * f, c.c1 * f, c.c2 * f, c.c3 * f⟩
  | Vertex.Texture pos alpha uv csf g => Vertex.Texture pos alpha uv (csf * f) g

/-- The per vertex transformation the source actually performs: the
three color channels multiplied with the alpha channel untouched for
color vertices, the color scale factor overwritten with the factor for
texture vertices. -/
def amendedScaleVertex (f : ℚ) : Vertex → Vertex
  | Vertex.Color pos c => Vertex.Color pos ⟨c.c0 * f, c.c1 * f, c.c2 * f, c.c3⟩
  | Vertex.Texture pos alpha uv _ g => Vertex.Texture pos alpha uv f g

/-- Counterexample to claim C9: a hovered, unpressed button over an
opaque white per vertex coloring; the claim predicts every alpha
channel scaled to 0.8 while the source leaves alpha at one, so the
built model differs from the claimed one. -/
theorem button_scale_counterexample :
    Button.build_model
        ⟨⟨(0, 0), 1, 1, Coloring.Color fun _ => ⟨1, 1, 1, 1⟩, []⟩, true, false⟩ ≠
      { vertices :=
          (TextBox.build_model
              ⟨(0, 0), 1, 1, Coloring.Color fun _ => ⟨1, 1, 1, 1⟩, []⟩).vertices.map
            (claimScaleVertex (specHoverPressFactor true false)),
        color_src :=
          (TextBox.build_model
              ⟨(0, 0), 1, 1, Coloring.Color fun _ => ⟨1, 1, 1, 1⟩, []⟩).color_src } := by
  norm_num [Button.build_model, TextBox.build_model, claimScaleVertex, specHoverPressFactor,
    List.ofFn_succ, List.ofFn_zero, Matrix.cons_val_zero, Matrix.cons_val_succ,
    Color.into_array, Model.mk.injEq, List.cons.injEq, Vertex.Color.injEq, RGBA.mk.injEq]

/-- Claim C9 amended: Button::build_model equals the inner TextBox
model with the rgb channels of color vertices multiplied by the
compound factor and alpha unchanged, and with the color scale factor of
texture vertices set to that factor; the factor compounds to 0.64 with
both flags set, is 0.8 with exactly one flag set, and is 1 with
neither. -/
theorem button_build_model_amended (b : Button) :
    (Button.build_model b =
      { vertices := (TextBox.build_model b.inner_box).vertices.map
          (amendedScaleVertex (specHoverPressFactor b.hovered b.pressed)),
        color_src := (TextBox.build_model b.inner_box).color_src }) ∧
    specHoverPressFactor true true = 16 / 25 ∧
    specHoverPressFactor true false = 4 / 5 ∧
    specHoverPressFactor false true = 4 / 5 ∧
    specHoverPressFactor false false = 1 := by
  refine ⟨?_, by norm_num [specHoverPressFactor], by norm_num [specHoverPressFactor],
    by norm_num [specHoverPressFactor], by norm_num [specHoverPressFactor]⟩
  simp only [Button.build_model, Model.mk.injEq]
  refine ⟨?_, trivial⟩
  apply List.map_congr_left
  intro v _
  cases v <;> rfl

/-- First atlas backed quad of the claim C1 scenario, atlas id seven. -/
def atlasQuadA : Model :=
  ColorBox.build_model ⟨(0, 0), 1, 1, Coloring.Tex ⟨TexTy.Atlas ⟨7, (3, 4)⟩⟩⟩

/-- Second atlas backed quad of the claim C1 scenario, same atlas id. -/
def atlasQuadB : Model :=
  ColorBox.build_model ⟨(1 / 2, 1 / 2), 1 / 4, 1 / 4, Coloring.Tex ⟨TexTy.Atlas ⟨7, (5, 6)⟩⟩⟩

/-- The frame submission produced for the claim C1 scenario. -/
def atlasFrame : FrameSubmission :=
  (Renderer.render [atlasQuadA, atlasQuadB] (Except.ok ())).toOption.getD ⟨⟨[], [], []⟩, [], []⟩

/-- Claim C1, evaluated at the failing input: two atlas backed quads of
the same atlas id in one frame are merged into a single twelve vertex
bucket for that atlas id, but the submission creates no vertex buffer
from the atlas bucket and issues no draw with the atlas pipeline, so
the merged bucket is dropped instead of drawn. -/
theorem atlas_bucket_merged_never_drawn :
    (Renderer.render [atlasQuadA, atlasQuadB] (Except.ok ())).isOk = true ∧
    (atlasFrame.buckets.atlas_models.map fun e => (e.1, e.2.length)) = [(7, 12)] ∧
    atlasFrame.pass1Draws = [⟨Pipeline.colorUi, 0, none⟩] ∧
    atlasFrame.uploadedBuffers = [UploadedBuffer.colorBuf []] ∧
    atlasFrame.pass1Draws.all (fun d => d.pipeline != Pipeline.atlasUi) = true :=
  ⟨rfl, rfl, rfl, rfl, rfl⟩

/-- Counterexample to claim C2: with the external surface reporting a
failure, Renderer::render does not return normally; the unwrap turns
the Err into a panic. -/
theorem present_failure_aborts :
    (Renderer.render [] (Except.error SurfaceError.lost)).isOk = false := rfl

/-- Claim C2 amended: when presenting fails, Renderer::render panics
through the unwrap on the external render Result, aborting instead of
logging and dropping the frame; the failure is not retried, and
whenever the frame content itself is well formed the panic is exactly
the unwrap on the present error. -/
theorem present_failure_panics (ui_models : List Model) (e : SurfaceError) :
    (Renderer.render ui_models (Except.error e)).isOk = false ∧
    ∀ b, partitionModels ui_models = some b →
      Renderer.render ui_models (Except.error e) =
        Except.error (RenderPanic.presentUnwrap e) := by
  constructor
  · cases h : partitionModels ui_models <;>
      simp [Renderer.render, h, Except.isOk, Except.toBool]
  · intro b hb
    simp [Renderer.render, hb]

/-- Witness for claim C2 at the empty frame and an outdated surface. -/
theorem present_failure_panics_witness :
    (partitionModels [] = some ⟨[], [], []⟩) ∧
    (Renderer.render [] (Except.error SurfaceError.outdated) =
      Except.error (RenderPanic.presentUnwrap SurfaceError.outdated)) :=
  ⟨rfl, (present_failure_panics [] SurfaceError.outdated).2 ⟨[], [], []⟩ rfl⟩
